import Mathlib

/-!
# Verification of the serverless event-driven notes pipeline

Shallow embedding of the repository's event-driven core:

* the persistence worker (`src/services/notes/src/handlers/save-note.ts`),
* the note storage writes (`putNote` in the notes DB client, DynamoDB
  `PutCommand` semantics: overwrite by composite key `(pk, sk)`),
* the submit-note producer (`src/services/notes/src/handlers/publish-note.ts`),
* the delete-note producer (`src/services/notes/src/handlers/delete-note.ts`),
* the WebSocket connection registry
  (`src/services/websocket/src/handlers/connect.ts`, `disconnect.ts`) and the
  notification dispatcher (`src/services/websocket/src/handlers/notify.ts`),
* the queue configuration (`src/cdk/lib/stacks/event-stack.ts`).

External effects (DynamoDB writes, EventBridge publishes, the wall clock,
and push-send outcomes) are passed in explicitly, so every handler is a
pure function from its inputs and an effect-outcome environment to its
observable result.
-/

namespace NotesPipeline

/-! ## The note-created payload and the note store -/

/-- The `NoteCreatedEvent` payload carried by a queue message
(`event-client.ts` / `save-note.ts`): `noteId`, `username`, `content`,
`isPublic`, `timestamp`. -/
structure NoteCreatedEvent where
  noteId : String
  username : String
  content : String
  isPublic : Bool
  timestamp : String
  deriving Repr, DecidableEq

/-- A stored DynamoDB item for a note (`NoteRecord` in
`notes-db-client.ts`): composite key `(pk, sk)` plus the note fields. -/
structure NoteItem where
  pk : String
  sk : String
  noteId : String
  username : String
  content : String
  isPublic : Bool
  status : String
  createdAt : String
  savedAt : String
  deriving Repr, DecidableEq

/-- The notes table, a list of items addressed by composite key. -/
abbrev Store := List NoteItem

/-- The composite key of an item. -/
def itemKey (it : NoteItem) : String × String := (it.pk, it.sk)

/-- DynamoDB `PutCommand` semantics (`putNote` in `notes-db-client.ts`):
insert the item, overwriting any existing item with the same `(pk, sk)`. -/
def putItem (s : Store) (it : NoteItem) : Store :=
  it :: s.filter (fun j => decide (itemKey j ≠ itemKey it))

/-- Look up the item stored under a composite key. -/
def lookupItem (s : Store) (k : String × String) : Option NoteItem :=
  s.find? (fun j => decide (itemKey j = k))

/-- The item the persistence worker writes for a parsed payload
(`save-note.ts` lines 38–64): public notes go under
`pk = "PUBLIC#NOTES"`, private notes under `pk = "USER#" ++ username`;
either way `sk = "NOTE#" ++ timestamp ++ "#" ++ noteId`, status `"saved"`. -/
def noteItem (savedAt : String) (e : NoteCreatedEvent) : NoteItem :=
  { pk := if e.isPublic then "PUBLIC#NOTES" else "USER#" ++ e.username
    sk := "NOTE#" ++ e.timestamp ++ "#" ++ e.noteId
    noteId := e.noteId
    username := e.username
    content := e.content
    isPublic := e.isPublic
    status := "saved"
    createdAt := e.timestamp
    savedAt := savedAt }

/-- The key the worker's single write targets. -/
def noteKey (e : NoteCreatedEvent) : String × String :=
  itemKey (noteItem "" e)

/-! ## The persistence worker (`save-note.ts`) -/

/-- An event published to the bus by the worker (`note-saved` on success,
`note-failed` from the catch block). -/
structure PublishedEvent where
  eventType : String
  noteId : String
  username : String
  content : Option String
  isPublic : Option Bool
  timestamp : String
  deriving Repr, DecidableEq

/-- The `note-saved` event the worker publishes after a successful write. -/
def noteSavedEvent (savedAt : String) (e : NoteCreatedEvent) : PublishedEvent :=
  { eventType := "note-saved", noteId := e.noteId, username := e.username
    content := some e.content, isPublic := some e.isPublic, timestamp := savedAt }

/-- The `note-failed` event the worker publishes best-effort from its catch
block; it carries no `isPublic` field. -/
def noteFailedEvent (now : String) (e : NoteCreatedEvent) : PublishedEvent :=
  { eventType := "note-failed", noteId := e.noteId, username := e.username
    content := none, isPublic := none, timestamp := now }

/-- One SQS record: its message id and the result of the two `JSON.parse`
calls on its body (`none` when deserialization throws). -/
structure SqsMessage where
  messageId : String
  parse : Option NoteCreatedEvent
  deriving Repr, DecidableEq

/-- Outcomes of the external effects during one record's processing:
the wall-clock string used for `savedAt`, and whether the DynamoDB put,
the `note-saved` publish and the `note-failed` publish succeed. -/
structure WorkerEnv where
  savedAt : String
  putOk : Bool
  publishSavedOk : Bool
  publishFailedOk : Bool
  deriving Repr, DecidableEq

/-- The observable result of processing one record. -/
structure RecordOutcome where
  store : Store
  published : List PublishedEvent
  failed : Bool
  deriving Repr, DecidableEq

/-- One iteration of the worker's `for` loop (`save-note.ts`): parse the
body, write the single note item, publish `note-saved`; any throw lands in
the catch block, which re-parses the body, publishes `note-failed`
best-effort when the body re-parses, and marks the message as a batch item
failure. -/
def processRecord (store : Store) (m : SqsMessage) (env : WorkerEnv) :
    RecordOutcome :=
  match m.parse with
  | none =>
      -- parse threw; the catch block's re-parse throws again, so no
      -- note-failed event is published, and the id is reported failed
      { store := store, published := [], failed := true }
  | some e =>
      if env.putOk then
        let store' := putItem store (noteItem env.savedAt e)
        if env.publishSavedOk then
          { store := store', published := [noteSavedEvent env.savedAt e],
            failed := false }
        else
          { store := store',
            published := if env.publishFailedOk
              then [noteFailedEvent env.savedAt e] else [],
            failed := true }
      else
        { store := store,
          published := if env.publishFailedOk
            then [noteFailedEvent env.savedAt e] else [],
          failed := true }

/-- The worker's batch handler: fold the per-record step over the batch,
accumulating the store, the published events, and `batchItemFailures`
(the message ids of records whose processing threw). -/
def saveNoteHandler (store : Store) :
    List (SqsMessage × WorkerEnv) → Store × List PublishedEvent × List String
  | [] => (store, [], [])
  | (m, env) :: rest =>
      let out := processRecord store m env
      let r := saveNoteHandler out.store rest
      (r.1, out.published ++ r.2.1,
        (if out.failed then [m.messageId] else []) ++ r.2.2)

/-- Does processing of a record throw at some stage (parse, storage write,
or the `note-saved` publish)? -/
def recordFails (p : SqsMessage × WorkerEnv) : Bool :=
  !(p.1.parse.isSome && p.2.putOk && p.2.publishSavedOk)

/-! ## The connection registry (`connect.ts`, `disconnect.ts`) -/

/-- One connection's data, as stored in both DynamoDB index items
(`connect.ts`): the by-connection item `(pk = "CONNECTION#" ++ id,
sk = "META")` and the by-owner item `(pk = "USER#" ++ username,
sk = "CONNECTION#" ++ id)` carry the same attributes. -/
structure ConnEntry where
  connectionId : String
  username : String
  deriving Repr, DecidableEq

/-- The connections table, split by key shape into its two logical
indices: items keyed `CONNECTION#id / META` and items keyed
`USER#u / CONNECTION#id`. -/
structure Registry where
  byConn : List ConnEntry
  byOwner : List ConnEntry
  deriving Repr, DecidableEq

/-- `connect.ts` after successful token decode: put the by-connection item,
then put the by-owner item (DynamoDB put = overwrite by key: by-connection
items are keyed by the connection id, by-owner items by the
(username, connection id) pair). -/
def connect (r : Registry) (cid u : String) : Registry :=
  { byConn := ⟨cid, u⟩ ::
      r.byConn.filter (fun en => decide (en.connectionId ≠ cid))
    byOwner := ⟨cid, u⟩ ::
      r.byOwner.filter
        (fun en => decide (¬(en.username = u ∧ en.connectionId = cid))) }

/-- `disconnect.ts`: read the by-connection item to learn the username,
delete the by-connection item, and delete the by-owner item when a
username was found. -/
def disconnect (r : Registry) (cid : String) : Registry :=
  let uOpt := (r.byConn.find? (fun en => decide (en.connectionId = cid))).map
    (·.username)
  let byConn' := r.byConn.filter (fun en => decide (en.connectionId ≠ cid))
  match uOpt with
  | some u =>
      { byConn := byConn'
        byOwner := r.byOwner.filter
          (fun en => decide (¬(en.username = u ∧ en.connectionId = cid))) }
  | none => { byConn := byConn', byOwner := r.byOwner }

/-- The dispatcher's owner-targeted query (`notify.ts`): all items with
`pk = "USER#" ++ username` whose sort key starts with `CONNECTION#`. -/
def listForOwner (r : Registry) (u : String) : List String :=
  (r.byOwner.filter (fun en => decide (en.username = u))).map (·.connectionId)

/-- The dispatcher's broadcast scan (`notify.ts`): all items whose
partition key starts with `CONNECTION#`. -/
def listAll (r : Registry) : List String :=
  r.byConn.map (·.connectionId)

/-! ## The notification dispatcher (`notify.ts`) -/

/-- The event types the notify handler consumes. -/
inductive NotifyType where
  | saved | failed | updated | deleted
  deriving Repr, DecidableEq

/-- The EventBridge detail the notify handler receives; `isPublic` is an
optional field of the wire format (`none` when the producer omitted it). -/
structure NotifyEvent where
  eventType : NotifyType
  noteId : String
  username : String
  isPublic : Option Bool
  deriving Repr, DecidableEq

/-- `notify.ts` line 40: `const isPublic = noteEvent.isPublic || false`. -/
def effectiveIsPublic (e : NotifyEvent) : Bool :=
  e.isPublic.getD false

/-- `notify.ts` line 45: broadcast exactly when the effective `isPublic` is
true and the type is `note-saved`, `note-updated` or `note-deleted`. -/
def isBroadcast (e : NotifyEvent) : Bool :=
  effectiveIsPublic e &&
    (e.eventType == .saved || e.eventType == .updated || e.eventType == .deleted)

/-- The recipient set the dispatcher resolves: the full connection scan on
the broadcast path, the owner query otherwise. -/
def recipients (r : Registry) (e : NotifyEvent) : List String :=
  if isBroadcast e then listAll r else listForOwner r e.username

/-- The `GoneException` cleanup in `notify.ts` for one connection id:
delete the item keyed `CONNECTION#cid / META`, and delete the item keyed
`USER#username / CONNECTION#cid` — where `username` is the **event's**
username, not the connection's owner. -/
def goneCleanup (eventUsername : String) (r : Registry) (cid : String) :
    Registry :=
  { byConn := r.byConn.filter (fun en => decide (en.connectionId ≠ cid))
    byOwner := r.byOwner.filter
      (fun en =>
        decide (¬(en.username = eventUsername ∧ en.connectionId = cid))) }

/-- One dispatch of the notify handler: resolve the recipients, attempt a
push to each (the outcome of each send is given by `gone`), run the
gone-cleanup for every recipient whose push reported gone, and record
which pushes were delivered. Returns (registry after cleanup, delivered,
attempted). -/
def dispatch (r : Registry) (e : NotifyEvent) (gone : String → Bool) :
    Registry × List String × List String :=
  let targets := recipients r e
  let delivered := targets.filter (fun c => !gone c)
  let r' := (targets.filter gone).foldl (goneCleanup e.username) r
  (r', delivered, targets)

/-! ## The producers (`publish-note.ts`, `delete-note.ts`) -/

/-- A JSON value as seen by the JavaScript handler when it reads a request
body field (the cases the handlers distinguish). -/
inductive JsVal where
  | bool (b : Bool)
  | str (s : String)
  | num (n : Int)
  | null
  | absent
  deriving Repr, DecidableEq

/-- JavaScript `String.prototype.trim`, as used by `publish-note.ts`:
remove the whitespace at both ends of the string. -/
def jsTrim (s : String) : String :=
  ⟨((s.data.dropWhile Char.isWhitespace).reverse.dropWhile
      Char.isWhitespace).reverse⟩

/-- JavaScript strict equality against `true` (`isPublic === true` in
`publish-note.ts`): only the boolean `true` passes. -/
def jsStrictEqTrue : JsVal → Bool
  | .bool true => true
  | _ => false

/-- The content validation in `publish-note.ts`:
`!content || typeof content !== 'string' || content.trim() === ''`
rejects; returns the content string when it passes. -/
def contentCheck : JsVal → Option String
  | .str s => if s = "" then none else if jsTrim s = "" then none else some s
  | _ => none

/-- A submit-note request after the HTTP layer: the username decoded from
the bearer token (`none` when the header is missing or the token has no
username), and the two body fields the handler reads. -/
structure PublishRequest where
  authUsername : Option String
  content : JsVal
  isPublic : JsVal
  deriving Repr, DecidableEq

/-- The HTTP response of the submit-note handler (the fields of its JSON
body that the claims mention). -/
structure ApiResponse where
  statusCode : Nat
  noteId : Option String
  status : Option String
  deriving Repr, DecidableEq

/-- The `note-created` detail `publish-note.ts` publishes to EventBridge. -/
structure NoteCreatedDetail where
  noteId : String
  username : String
  content : String
  isPublic : Bool
  timestamp : String
  deriving Repr, DecidableEq

/-- `publish-note.ts`: authenticate, validate the content, generate the
note id and timestamp (passed in: they come from `Date`/`Math.random`),
publish the `note-created` event, and only then return 202 with
`{noteId, status: "pending"}`. A publish throw lands in the catch block
and returns 500. Returns (published event, HTTP response). -/
def publishNoteHandler (req : PublishRequest) (noteId timestamp : String)
    (publishOk : Bool) : Option NoteCreatedDetail × ApiResponse :=
  match req.authUsername with
  | none => (none, { statusCode := 401, noteId := none, status := none })
  | some u =>
      match contentCheck req.content with
      | none => (none, { statusCode := 400, noteId := none, status := none })
      | some s =>
          if publishOk then
            (some { noteId := noteId, username := u, content := jsTrim s
                    isPublic := jsStrictEqTrue req.isPublic
                    timestamp := timestamp },
             { statusCode := 202, noteId := some noteId,
               status := some "pending" })
          else
            (none, { statusCode := 500, noteId := none, status := none })

/-- The `note-deleted` detail published by `delete-note.ts` (lines
110–128): `eventType`, `noteId`, `username`, `deletedAt`, `timestamp` —
and no `isPublic` field. -/
def deleteNotePublishedEvent (noteId username : String) : NotifyEvent :=
  { eventType := .deleted, noteId := noteId, username := username
    isPublic := none }

/-! ## The processing queue configuration (`event-stack.ts`) -/

/-- The SQS configuration of the note processing queue
(`event-stack.ts` lines 35–43). -/
structure QueueConfig where
  visibilityTimeoutSeconds : Nat
  receiveWaitSeconds : Nat
  maxReceiveCount : Nat
  deriving Repr, DecidableEq

/-- The deployed configuration: visibility timeout 30 s, long polling
20 s, dead-letter redrive after 3 receives. -/
def noteProcessingQueueConfig : QueueConfig :=
  { visibilityTimeoutSeconds := 30, receiveWaitSeconds := 20
    maxReceiveCount := 3 }

/-- Modelled from the spec: the queue's redelivery state for one message —
SQS itself is an external collaborator, not code under `src/`; §4.3 of the
spec describes its semantics ("after N delivery attempts without
acknowledgement, the message moves to a dead-letter sink instead of being
redelivered"). The state is the number of completed delivery attempts and
whether the message has been moved to the dead-letter queue. -/
structure MsgQueueState where
  receiveCount : Nat
  inDlq : Bool
  deriving Repr, DecidableEq

/-- Modelled from the spec: one receive attempt against a message whose
processing always fails (is never acknowledged). A message already in the
dead-letter queue is not delivered again; otherwise the message is
delivered once more and, when the new receive count has reached
`maxReceiveCount`, the still-unacknowledged message is moved to the
dead-letter queue instead of being made visible again. Returns the new
state and whether a delivery happened. -/
def receiveAttempt (cfg : QueueConfig) (s : MsgQueueState) :
    MsgQueueState × Bool :=
  if s.inDlq then (s, false)
  else
    ({ receiveCount := s.receiveCount + 1,
       inDlq := cfg.maxReceiveCount ≤ s.receiveCount + 1 }, true)

/-- `n` receive attempts against an always-failing message, starting from
a fresh message; returns the final state and the total number of
deliveries made to the worker. -/
def runFailingAttempts (cfg : QueueConfig) : Nat → MsgQueueState × Nat
  | 0 => ({ receiveCount := 0, inDlq := false }, 0)
  | n + 1 =>
      let r := runFailingAttempts cfg n
      let a := receiveAttempt cfg r.1
      (a.1, r.2 + if a.2 then 1 else 0)

/-! ## Helper lemmas about the store -/

/-- Filtering out only elements the search predicate rejects leaves
`find?` unchanged. -/
theorem find?_filter_eq {α : Type} (p q : α → Bool) (l : List α)
    (h : ∀ a, p a = true → q a = true) :
    (l.filter q).find? p = l.find? p := by
  induction l with
  | nil => rfl
  | cons a l ih =>
      by_cases hq : q a = true
      · by_cases hp : p a = true
        · simp [List.filter_cons, hq, List.find?_cons, hp]
        · simp only [Bool.not_eq_true] at hp
          simp [List.filter_cons, hq, List.find?_cons, hp, ih]
      · have hp : p a = false := by
          cases hpa : p a
          · rfl
          · exact absurd (h a hpa) hq
        simp only [Bool.not_eq_true] at hq
        simp [List.filter_cons, hq, List.find?_cons, hp, ih]

/-- A put makes its own item visible under its key. -/
theorem lookupItem_putItem_self (s : Store) (it : NoteItem) :
    lookupItem (putItem s it) (itemKey it) = some it := by
  simp [lookupItem, putItem, List.find?_cons]

/-- A put leaves every other key untouched. -/
theorem lookupItem_putItem_ne (s : Store) (it : NoteItem)
    (k : String × String) (hk : k ≠ itemKey it) :
    lookupItem (putItem s it) k = lookupItem s k := by
  simp only [lookupItem, putItem, List.find?_cons]
  have hhead : decide (itemKey it = k) = false :=
    decide_eq_false fun h => hk h.symm
  rw [hhead]
  exact find?_filter_eq _ _ s fun a ha =>
    decide_eq_true (by rw [of_decide_eq_true ha]; exact hk)

/-- The key the worker writes under does not depend on the clock. -/
theorem itemKey_noteItem (savedAt : String) (e : NoteCreatedEvent) :
    itemKey (noteItem savedAt e) = noteKey e := rfl

/-- Re-putting an item under the same key supersedes the first put. -/
theorem putItem_putItem_same_key (s : Store) (it₁ it₂ : NoteItem)
    (h : itemKey it₁ = itemKey it₂) :
    putItem (putItem s it₁) it₂ = putItem s it₂ := by
  have hq : (fun j => decide (itemKey j ≠ itemKey it₁)) =
      (fun j => decide (itemKey j ≠ itemKey it₂)) := by
    funext j; rw [h]
  have hdrop : decide (itemKey it₁ ≠ itemKey it₂) = false := by
    rw [h]; simp
  simp only [putItem, hq, List.filter_cons, hdrop]
  simp only [Bool.false_eq_true, if_false, List.filter_filter]
  congr 1
  apply List.filter_congr
  intro j _
  exact Bool.and_self _

/-- When the body parses and the put succeeds, the store after the record
is the single note-item put, whatever the publish outcomes. -/
theorem processRecord_store_of_putOk (s : Store) (m : SqsMessage)
    (env : WorkerEnv) (e : NoteCreatedEvent) (hp : m.parse = some e)
    (hput : env.putOk = true) :
    (processRecord s m env).store = putItem s (noteItem env.savedAt e) := by
  cases hps : env.publishSavedOk <;>
    simp [processRecord, hp, hput, hps]

/-- A record is reported in `batchItemFailures` exactly when its parse,
its storage write, or its `note-saved` publish failed. -/
theorem processRecord_failed_eq (s : Store) (m : SqsMessage)
    (env : WorkerEnv) :
    (processRecord s m env).failed = recordFails (m, env) := by
  cases hp : m.parse <;>
    cases hput : env.putOk <;>
      cases hps : env.publishSavedOk <;>
        simp [processRecord, recordFails, hp, hput, hps]

/-- The batch response lists exactly the ids of the records whose
processing threw. -/
theorem saveNoteHandler_failures (store : Store)
    (batch : List (SqsMessage × WorkerEnv)) :
    (saveNoteHandler store batch).2.2 =
      (batch.filter recordFails).map (fun p => p.1.messageId) := by
  induction batch generalizing store with
  | nil => rfl
  | cons p rest ih =>
      obtain ⟨m, env⟩ := p
      simp only [saveNoteHandler, List.filter_cons]
      rw [processRecord_failed_eq]
      cases hf : recordFails (m, env) <;> simp [ih, hf]

/-! ## Claims about the persistence worker -/

/-- Claim C1 (amended): for every queue message the worker persists
successfully, it performs exactly one write — under the shared
public-bucket key `PUBLIC#NOTES` when the note is public, under the
owner's `USER#` key when it is private — storing the record with status
`saved`; every other key of the store, the owner's key of a public note
included, is untouched. -/
theorem worker_single_write (store : Store) (m : SqsMessage)
    (env : WorkerEnv) (e : NoteCreatedEvent)
    (hp : m.parse = some e) (hput : env.putOk = true) :
    lookupItem (processRecord store m env).store (noteKey e) =
        some (noteItem env.savedAt e) ∧
    (noteItem env.savedAt e).status = "saved" ∧
    (e.isPublic = true → (noteKey e).1 = "PUBLIC#NOTES") ∧
    (e.isPublic = false → (noteKey e).1 = "USER#" ++ e.username) ∧
    ∀ k, k ≠ noteKey e →
      lookupItem (processRecord store m env).store k = lookupItem store k := by
  rw [processRecord_store_of_putOk store m env e hp hput]
  refine ⟨?_, rfl, ?_, ?_, ?_⟩
  · rw [← itemKey_noteItem env.savedAt e]
    exact lookupItem_putItem_self store (noteItem env.savedAt e)
  · intro hpub; simp [noteKey, itemKey, noteItem, hpub]
  · intro hpriv; simp [noteKey, itemKey, noteItem, hpriv]
  · intro k hk
    apply lookupItem_putItem_ne
    rw [itemKey_noteItem]
    exact hk

/-- Claim C1 witness: the amended statement evaluated at a concrete
public note. -/
theorem worker_single_write_witness :
    lookupItem (processRecord []
        { messageId := "m1",
          parse := some { noteId := "n1", username := "alice",
                          content := "hi", isPublic := true,
                          timestamp := "t1" } }
        { savedAt := "s1", putOk := true, publishSavedOk := true,
          publishFailedOk := true }).store
      (noteKey { noteId := "n1", username := "alice", content := "hi",
                 isPublic := true, timestamp := "t1" }) =
        some (noteItem "s1"
          { noteId := "n1", username := "alice", content := "hi",
            isPublic := true, timestamp := "t1" }) :=
  (worker_single_write []
    { messageId := "m1",
      parse := some { noteId := "n1", username := "alice", content := "hi",
                      isPublic := true, timestamp := "t1" } }
    { savedAt := "s1", putOk := true, publishSavedOk := true,
      publishFailedOk := true }
    { noteId := "n1", username := "alice", content := "hi",
      isPublic := true, timestamp := "t1" } rfl rfl).1

/-- Claim C1 counterexample: processing a public note writes no record
under the owner's private key — after the worker handles alice's public
note, the owner-key lookup is empty while the public-bucket lookup holds
the saved record, refuting the claimed dual write. -/
theorem worker_dual_write_counterexample :
    lookupItem (processRecord []
        { messageId := "m1",
          parse := some { noteId := "n1", username := "alice",
                          content := "hi", isPublic := true,
                          timestamp := "t1" } }
        { savedAt := "s1", putOk := true, publishSavedOk := true,
          publishFailedOk := true }).store
      ("USER#alice", "NOTE#t1#n1") = none ∧
    (lookupItem (processRecord []
        { messageId := "m1",
          parse := some { noteId := "n1", username := "alice",
                          content := "hi", isPublic := true,
                          timestamp := "t1" } }
        { savedAt := "s1", putOk := true, publishSavedOk := true,
          publishFailedOk := true }).store
      ("PUBLIC#NOTES", "NOTE#t1#n1")).isSome = true := by decide

/-- Claim C4 (amended): a queue message whose body fails to deserialize is
not dropped — the catch block reports its id in `batchItemFailures`, so
the queue redelivers it. -/
theorem malformed_message_reported_failed (store : Store)
    (batch : List (SqsMessage × WorkerEnv)) (m : SqsMessage)
    (env : WorkerEnv) (hm : (m, env) ∈ batch) (hp : m.parse = none) :
    m.messageId ∈ (saveNoteHandler store batch).2.2 := by
  rw [saveNoteHandler_failures]
  exact List.mem_map.mpr
    ⟨(m, env), List.mem_filter.mpr ⟨hm, by simp [recordFails, hp]⟩, rfl⟩

/-- Claim C4 witness: a concrete malformed message is reported failed. -/
theorem malformed_message_reported_failed_witness :
    "m1" ∈ (saveNoteHandler []
      [({ messageId := "m1", parse := none },
        { savedAt := "s1", putOk := true, publishSavedOk := true,
          publishFailedOk := true })]).2.2 :=
  malformed_message_reported_failed []
    [({ messageId := "m1", parse := none },
      { savedAt := "s1", putOk := true, publishSavedOk := true,
        publishFailedOk := true })]
    { messageId := "m1", parse := none }
    { savedAt := "s1", putOk := true, publishSavedOk := true,
      publishFailedOk := true }
    (List.mem_singleton.mpr rfl) rfl

/-- Claim C4 counterexample: the claim says a message with an
undeserializable body is acknowledged and never reported as a batch item
failure; for this concrete batch the failure list is exactly that
message's id. -/
theorem malformed_message_dropped_counterexample :
    (saveNoteHandler []
      [({ messageId := "m1", parse := none },
        { savedAt := "s1", putOk := true, publishSavedOk := true,
          publishFailedOk := true })]).2.2 = ["m1"] := by decide

/-- Claim C5 (amended): the batch response contains exactly the ids of
the messages whose processing threw at any stage — deserialization, the
storage write, or the subsequent `note-saved` publish; a message whose
storage write succeeded is still reported as failed (and so redelivered)
when its `note-saved` publish fails. -/
theorem batch_failures_exactly_thrown (store : Store)
    (batch : List (SqsMessage × WorkerEnv)) :
    (saveNoteHandler store batch).2.2 =
      (batch.filter (fun p =>
        !(p.1.parse.isSome && p.2.putOk && p.2.publishSavedOk))).map
        (fun p => p.1.messageId) :=
  saveNoteHandler_failures store batch

/-- Claim C5 counterexample: a message whose storage write succeeded but
whose `note-saved` publish failed is reported as a batch item failure,
with the saved record present in the store — refuting "acknowledged
regardless of whether the publish succeeds". -/
theorem ack_despite_publish_failure_counterexample :
    (saveNoteHandler []
      [({ messageId := "m1",
          parse := some { noteId := "n1", username := "alice",
                          content := "hi", isPublic := true,
                          timestamp := "t1" } },
        { savedAt := "s1", putOk := true, publishSavedOk := false,
          publishFailedOk := true })]).2.2 = ["m1"] ∧
    (lookupItem (saveNoteHandler []
      [({ messageId := "m1",
          parse := some { noteId := "n1", username := "alice",
                          content := "hi", isPublic := true,
                          timestamp := "t1" } },
        { savedAt := "s1", putOk := true, publishSavedOk := false,
          publishFailedOk := true })]).1
      ("PUBLIC#NOTES", "NOTE#t1#n1")).isSome = true := by decide

/-- Claim C7: delivering the same `NoteRequested` payload twice writes
the same composite key both times, the second put supersedes the first,
and from an empty store the result is a single stored record. -/
theorem duplicate_delivery_one_record (store : Store) (m : SqsMessage)
    (e : NoteCreatedEvent) (env₁ env₂ : WorkerEnv)
    (hp : m.parse = some e) (h₁ : env₁.putOk = true)
    (h₂ : env₂.putOk = true) :
    itemKey (noteItem env₁.savedAt e) = itemKey (noteItem env₂.savedAt e) ∧
    (processRecord (processRecord store m env₁).store m env₂).store =
      (processRecord store m env₂).store ∧
    ((processRecord (processRecord [] m env₁).store m env₂).store).length
      = 1 := by
  have hkey : itemKey (noteItem env₁.savedAt e) =
      itemKey (noteItem env₂.savedAt e) := by
    rw [itemKey_noteItem, itemKey_noteItem]
  refine ⟨hkey, ?_, ?_⟩
  · rw [processRecord_store_of_putOk store m env₁ e hp h₁,
      processRecord_store_of_putOk _ m env₂ e hp h₂,
      processRecord_store_of_putOk store m env₂ e hp h₂]
    exact putItem_putItem_same_key store _ _ hkey
  · rw [processRecord_store_of_putOk ([] : Store) m env₁ e hp h₁,
      processRecord_store_of_putOk _ m env₂ e hp h₂,
      putItem_putItem_same_key ([] : Store) _ _ hkey]
    rfl

/-- Claim C7 witness: the idempotence statement evaluated at a concrete
duplicated delivery. -/
theorem duplicate_delivery_one_record_witness :
    ((processRecord (processRecord []
        { messageId := "m1",
          parse := some { noteId := "n1", username := "alice",
                          content := "hi", isPublic := true,
                          timestamp := "t1" } }
        { savedAt := "s1", putOk := true, publishSavedOk := true,
          publishFailedOk := true }).store
      { messageId := "m1",
        parse := some { noteId := "n1", username := "alice",
                        content := "hi", isPublic := true,
                        timestamp := "t1" } }
      { savedAt := "s2", putOk := true, publishSavedOk := false,
        publishFailedOk := false }).store).length = 1 :=
  (duplicate_delivery_one_record []
    { messageId := "m1",
      parse := some { noteId := "n1", username := "alice", content := "hi",
                      isPublic := true, timestamp := "t1" } }
    { noteId := "n1", username := "alice", content := "hi",
      isPublic := true, timestamp := "t1" }
    { savedAt := "s1", putOk := true, publishSavedOk := true,
      publishFailedOk := true }
    { savedAt := "s2", putOk := true, publishSavedOk := false,
      publishFailedOk := false }
    rfl rfl rfl).2.2

/-! ## Claims about the dispatcher and the registry -/

/-- On an event that carries no `isPublic` field or carries one that is
not the boolean `true`, or on any `note-failed` event, the dispatcher's
broadcast test is false. -/
theorem isBroadcast_false (e : NotifyEvent)
    (h : e.eventType = .failed ∨ e.isPublic ≠ some true) :
    isBroadcast e = false := by
  rcases h with ht | hp
  · simp [isBroadcast, ht]
  · have : effectiveIsPublic e = false := by
      cases hip : e.isPublic with
      | none => simp [effectiveIsPublic, hip]
      | some b =>
          cases b
          · simp [effectiveIsPublic, hip]
          · exact absurd hip hp
    simp [isBroadcast, this]

/-- Claim C2 (amended): a save, update or delete event whose payload
carries `isPublic = true` is dispatched to every currently-registered
connection (the full connection scan); but the `note-deleted` event the
delete-note handler publishes omits the `isPublic` field, so it is
dispatched only to the owner's connections, even when the deleted note
was public. -/
theorem public_event_broadcast (r : Registry) (e : NotifyEvent)
    (gone : String → Bool) (hpub : e.isPublic = some true)
    (ht : e.eventType ≠ .failed) :
    (dispatch r e gone).2.2 = listAll r ∧
    ∀ (r' : Registry) (g : String → Bool) (nid u : String),
      (dispatch r' (deleteNotePublishedEvent nid u) g).2.2 =
        listForOwner r' u := by
  constructor
  · have hb : isBroadcast e = true := by
      cases hty : e.eventType <;>
        simp_all [isBroadcast, effectiveIsPublic, hpub]
    simp [dispatch, recipients, hb]
  · intro r' g nid u
    have hb : isBroadcast (deleteNotePublishedEvent nid u) = false :=
      isBroadcast_false _ (Or.inr (by simp [deleteNotePublishedEvent]))
    simp only [dispatch, recipients, hb, Bool.false_eq_true, if_false]
    rfl

/-- Claim C2 witness: the amended statement at a concrete public
note-saved event and a two-owner registry. -/
theorem public_event_broadcast_witness :
    (dispatch (connect (connect { byConn := [], byOwner := [] }
        "a1" "alice") "b1" "bob")
      { eventType := .saved, noteId := "n1", username := "alice",
        isPublic := some true }
      (fun _ => false)).2.2 =
      listAll (connect (connect { byConn := [], byOwner := [] }
        "a1" "alice") "b1" "bob") :=
  (public_event_broadcast
    (connect (connect { byConn := [], byOwner := [] } "a1" "alice")
      "b1" "bob")
    { eventType := .saved, noteId := "n1", username := "alice",
      isPublic := some true }
    (fun _ => false) rfl (by decide)).1

/-- Claim C2 counterexample: bob's connection is registered, yet the
dispatch of the event the delete-note handler publishes for alice's
public note attempts no push to it — refuting "attempts a push to each
currently-registered connection ... including delete events produced by
the delete-note API handler". -/
theorem delete_event_broadcast_counterexample :
    "b1" ∈ listAll (connect (connect { byConn := [], byOwner := [] }
        "a1" "alice") "b1" "bob") ∧
    "b1" ∉ (dispatch (connect (connect { byConn := [], byOwner := [] }
        "a1" "alice") "b1" "bob")
      (deleteNotePublishedEvent "n1" "alice") (fun _ => false)).2.2 := by
  decide

/-- Claim C3: the gone-cleanup during a broadcast deletes the by-owner
entry under the **event's** username instead of the connection's owner.
Concretely: connection `b1` is registered for owner `bob`; a broadcast of
alice's public note pushes to `b1`, the push reports gone, and afterwards
`b1` is removed from the by-connection index but still present in the
by-owner index — `listForOwner "bob"` still lists it, refuting the
claimed removal from both indices. -/
theorem gone_cleanup_wrong_owner_exhibit :
    (dispatch (connect { byConn := [], byOwner := [] } "b1" "bob")
      { eventType := .saved, noteId := "n1", username := "alice",
        isPublic := some true }
      (fun c => c == "b1")).1.byConn = [] ∧
    listForOwner
      (dispatch (connect { byConn := [], byOwner := [] } "b1" "bob")
        { eventType := .saved, noteId := "n1", username := "alice",
          isPublic := some true }
        (fun c => c == "b1")).1 "bob" = ["b1"] := by
  decide

/-- Claim C8: a `note-failed` event, or any event not marked
`isPublic = true`, is dispatched exactly to the owner-query result, and
every attempted push goes to a connection whose by-owner registration is
under the event's username — no connection registered to a different
owner is pushed. -/
theorem private_event_owner_only (r : Registry) (e : NotifyEvent)
    (gone : String → Bool)
    (h : e.eventType = .failed ∨ e.isPublic ≠ some true) :
    (dispatch r e gone).2.2 = listForOwner r e.username ∧
    ∀ cid ∈ (dispatch r e gone).2.2,
      ∃ en ∈ r.byOwner, en.connectionId = cid ∧
        en.username = e.username := by
  have hb : isBroadcast e = false := isBroadcast_false e h
  have htargets : (dispatch r e gone).2.2 = listForOwner r e.username := by
    simp [dispatch, recipients, hb]
  refine ⟨htargets, ?_⟩
  intro cid hcid
  rw [htargets] at hcid
  obtain ⟨en, hen, hc⟩ := List.mem_map.mp hcid
  obtain ⟨hmem, hu⟩ := List.mem_filter.mp hen
  exact ⟨en, hmem, hc, of_decide_eq_true hu⟩

/-- Claim C8 witness: the owner-only dispatch at a concrete private
event and a registry holding alice's and bob's connections. -/
theorem private_event_owner_only_witness :
    (dispatch (connect (connect { byConn := [], byOwner := [] }
        "a1" "alice") "b1" "bob")
      { eventType := .saved, noteId := "n1", username := "alice",
        isPublic := none }
      (fun _ => false)).2.2 =
      listForOwner (connect (connect { byConn := [], byOwner := [] }
        "a1" "alice") "b1" "bob") "alice" :=
  (private_event_owner_only
    (connect (connect { byConn := [], byOwner := [] } "a1" "alice")
      "b1" "bob")
    { eventType := .saved, noteId := "n1", username := "alice",
      isPublic := none }
    (fun _ => false) (Or.inr (by decide))).1

/-! ## Claims about the queue configuration -/

/-- Closed form of the always-failing delivery process under the deployed
configuration (`maxReceiveCount = 3`). -/
theorem runFailingAttempts_closed (n : Nat) :
    runFailingAttempts noteProcessingQueueConfig n =
      ({ receiveCount := min n 3, inDlq := decide (3 ≤ n) }, min n 3) := by
  induction n with
  | zero => rfl
  | succ n ih =>
      simp only [runFailingAttempts, ih, receiveAttempt]
      by_cases h3 : 3 ≤ n
      · have hd : decide (3 ≤ n) = true := decide_eq_true h3
        have h1 : min n 3 = 3 := by omega
        have h2 : min (n + 1) 3 = 3 := by omega
        have hd1 : decide (3 ≤ n + 1) = true := decide_eq_true (by omega)
        simp only [hd, if_true]
        simp [h1, h2, hd1]
        omega
      · have hd : decide (3 ≤ n) = false := decide_eq_false h3
        have h1 : min n 3 = n := by omega
        have h2 : min (n + 1) 3 = n + 1 := by omega
        have hle : (noteProcessingQueueConfig.maxReceiveCount ≤ n + 1) =
            (3 ≤ n + 1) := rfl
        simp [hd, h1, h2, hle]

/-- Claim C6: under the deployed queue configuration a message whose
processing fails on every delivery is delivered exactly
`maxReceiveCount = 3` times, sits in the dead-letter queue afterwards,
and is never delivered a 4th time however long the process runs. -/
theorem dead_letter_after_three_failures (n : Nat) (hn : 3 ≤ n) :
    (runFailingAttempts noteProcessingQueueConfig n).2 =
      noteProcessingQueueConfig.maxReceiveCount ∧
    (runFailingAttempts noteProcessingQueueConfig n).1.inDlq = true ∧
    ∀ m, (runFailingAttempts noteProcessingQueueConfig m).2 ≤
      noteProcessingQueueConfig.maxReceiveCount := by
  refine ⟨?_, ?_, ?_⟩
  · rw [runFailingAttempts_closed]
    show min n 3 = 3
    omega
  · rw [runFailingAttempts_closed]
    exact decide_eq_true hn
  · intro m
    rw [runFailingAttempts_closed]
    show min m 3 ≤ 3
    omega

/-- Claim C6 witness: five receive attempts deliver the message exactly
three times and leave it dead-lettered. -/
theorem dead_letter_after_three_failures_witness :
    (runFailingAttempts noteProcessingQueueConfig 5).2 =
      noteProcessingQueueConfig.maxReceiveCount ∧
    (runFailingAttempts noteProcessingQueueConfig 5).1.inDlq = true ∧
    ∀ m, (runFailingAttempts noteProcessingQueueConfig m).2 ≤
      noteProcessingQueueConfig.maxReceiveCount :=
  dead_letter_after_three_failures 5 (by decide)

/-! ## Claims about the submit-note producer -/

/-- Claim C9: an authenticated submit-note request with valid (non-empty
after trimming) content is answered with status 202 and body
`{noteId, status: "pending"}` without any storage write — the handler
only publishes the `note-created` event — and the `noteId` in the
response is the very id carried by the published event: it is assigned
once, at request time, by the producer. -/
theorem submit_note_pending_response (req : PublishRequest)
    (u s noteId timestamp : String) (hu : req.authUsername = some u)
    (hc : contentCheck req.content = some s) :
    (publishNoteHandler req noteId timestamp true).2.statusCode = 202 ∧
    (publishNoteHandler req noteId timestamp true).2.noteId =
      some noteId ∧
    (publishNoteHandler req noteId timestamp true).2.status =
      some "pending" ∧
    ∃ d, (publishNoteHandler req noteId timestamp true).1 = some d ∧
      d.noteId = noteId := by
  simp [publishNoteHandler, hu, hc]

/-- Claim C9 witness: the 202/pending response with matching event id at
a concrete request. -/
theorem submit_note_pending_response_witness :
    (publishNoteHandler
      { authUsername := some "alice", content := .str "hello",
        isPublic := .bool true } "id1" "t0" true).2.statusCode = 202 ∧
    (publishNoteHandler
      { authUsername := some "alice", content := .str "hello",
        isPublic := .bool true } "id1" "t0" true).2.noteId = some "id1" ∧
    (publishNoteHandler
      { authUsername := some "alice", content := .str "hello",
        isPublic := .bool true } "id1" "t0" true).2.status =
      some "pending" ∧
    ∃ d, (publishNoteHandler
      { authUsername := some "alice", content := .str "hello",
        isPublic := .bool true } "id1" "t0" true).1 = some d ∧
      d.noteId = "id1" :=
  submit_note_pending_response
    { authUsername := some "alice", content := .str "hello",
      isPublic := .bool true } "alice" "hello" "id1" "t0" rfl (by decide)

/-- Claim C10: the published `note-created` event is marked public
exactly when the request body's `isPublic` field is the JSON boolean
`true` — the string `"true"`, the number `1`, `null` or an absent field
all yield a private note — and the published content is the trimmed form
of the submitted content string. -/
theorem submit_note_strict_public_flag (req : PublishRequest)
    (u c noteId timestamp : String) (hu : req.authUsername = some u)
    (hc : contentCheck req.content = some c) :
    ∃ d, (publishNoteHandler req noteId timestamp true).1 = some d ∧
      (d.isPublic = true ↔ req.isPublic = JsVal.bool true) ∧
      d.content = jsTrim c := by
  have hev : (publishNoteHandler req noteId timestamp true).1 =
      some { noteId := noteId, username := u, content := jsTrim c,
             isPublic := jsStrictEqTrue req.isPublic,
             timestamp := timestamp } := by
    simp [publishNoteHandler, hu, hc]
  refine ⟨_, hev, ?_, rfl⟩
  show jsStrictEqTrue req.isPublic = true ↔ req.isPublic = JsVal.bool true
  cases hip : req.isPublic with
  | bool b => cases b <;> simp [jsStrictEqTrue]
  | str v => simp [jsStrictEqTrue]
  | num v => simp [jsStrictEqTrue]
  | null => simp [jsStrictEqTrue]
  | absent => simp [jsStrictEqTrue]

/-- Claim C10 witness: a request whose `isPublic` is the string
`"true"` publishes a private note with trimmed content. -/
theorem submit_note_strict_public_flag_witness :
    ∃ d, (publishNoteHandler
      { authUsername := some "alice", content := .str "  hi ",
        isPublic := .str "true" } "id1" "t0" true).1 = some d ∧
      (d.isPublic = true ↔
        ({ authUsername := some "alice", content := .str "  hi ",
           isPublic := .str "true" } : PublishRequest).isPublic =
          JsVal.bool true) ∧
      d.content = jsTrim "  hi " :=
  submit_note_strict_public_flag
    { authUsername := some "alice", content := .str "  hi ",
      isPublic := .str "true" } "alice" "  hi " "id1" "t0" rfl
    (by decide)

end NotesPipeline
